import Mathlib

set_option maxRecDepth 100000

/-!
Shallow embedding of the OAuth utility module (`src/util/src/oauth.rs`)
and the user-lookup endpoint (`src/router/src/apis/user.rs`) of the
Lipoic server, together with proofs settling the specification claims.

Outbound HTTP calls are modelled by the request values the code
constructs and by oracles standing for the network: a fetch oracle maps
an access token to either an error or a decoded response, exactly the
observable behaviour of one `reqwest` round trip plus deserialization.
-/

/-- `database::model::auth::user::ConnectType` (the provider kind). -/
inductive ConnectType where
  | Google
  | Facebook
deriving DecidableEq, Repr

def GOOGLE_AUTH_URL : String := "https://accounts.google.com/o/oauth2/auth"

def GOOGLE_TOKEN_URL : String := "https://oauth2.googleapis.com/token"

def GOOGLE_USER_INFO : String := "https://www.googleapis.com/oauth2/v1/userinfo?alt=json"

def FACEBOOK_AUTH_URL : String := "https://www.facebook.com/dialog/oauth"

def FACEBOOK_TOKEN_URL : String := "https://graph.facebook.com/v14.0/oauth/access_token"

def FACEBOOK_USER_INFO : String := "https://graph.facebook.com/v14.0"

/-- `OAuthData` from `oauth.rs` (the OAuthRequestContext of the spec). -/
structure OAuthData where
  account_type : ConnectType
  client_secret : String
  client_id : String
  issuer : String
  redirect_path : String
deriving DecidableEq, Repr

/-- A byte is left as-is by `urlencoding::encode` iff it is an ASCII
alphanumeric or one of `-`, `.`, `_`, `~`. -/
def isUrlUnreserved (n : Nat) : Bool :=
  (65 ≤ n && n ≤ 90) || (97 ≤ n && n ≤ 122) || (48 ≤ n && n ≤ 57) ||
  n == 45 || n == 46 || n == 95 || n == 126

/-- Upper-case hexadecimal digit for a value below 16. -/
def hexUpper (n : Nat) : Char :=
  if n < 10 then Char.ofNat (48 + n) else Char.ofNat (55 + n)

/-- Encoding of one byte (given as its numeric value) under
`urlencoding::encode`: unreserved bytes pass through, all others become
a percent escape with upper-case hex digits. -/
def encodeByte (n : Nat) : List Char :=
  if isUrlUnreserved n then [Char.ofNat n]
  else ['%', hexUpper (n / 16), hexUpper (n % 16)]

def encodeBytes : List Nat → List Char
  | [] => []
  | n :: rest => encodeByte n ++ encodeBytes rest

/-- The UTF-8 byte values of one character. -/
def utf8Bytes (c : Char) : List Nat :=
  let n := c.toNat
  if n < 128 then [n]
  else if n < 2048 then [192 + n / 64, 128 + n % 64]
  else if n < 65536 then [224 + n / 4096, 128 + (n / 64) % 64, 128 + n % 64]
  else [240 + n / 262144, 128 + (n / 4096) % 64, 128 + (n / 64) % 64,
        128 + n % 64]

/-- `urlencoding::encode`, applied to the UTF-8 bytes of the string. -/
def encode (s : String) : String :=
  String.mk (encodeBytes (s.data.flatMap utf8Bytes))

/-- Modelled from the spec: `get_redirect_uri_by_path` (a URI-joining
collaborator utility whose source is not among the extracted files)
concatenates the issuing origin with the redirect path and tolerates
missing or extra path separators. -/
def get_redirect_uri_by_path (issuer : String) (path : String) : String :=
  if issuer.data.getLast? = some '/' ∧ path.data.head? = some '/' then
    issuer ++ String.mk (path.data.drop 1)
  else if issuer.data.getLast? ≠ some '/' ∧ path.data.head? ≠ some '/' then
    issuer ++ "/" ++ path
  else issuer ++ path

/-- The scope literal selected by the first `match` in `get_auth_url`. -/
def oauthScope : ConnectType → String
  | ConnectType.Google =>
      "https://www.googleapis.com/auth/userinfo.profile https://www.googleapis.com/auth/userinfo.email"
  | ConnectType.Facebook => "public_profile,email"

/-- The authorization endpoint selected by the second `match` in
`get_auth_url`. -/
def authEndpoint : ConnectType → String
  | ConnectType.Google => GOOGLE_AUTH_URL
  | ConnectType.Facebook => FACEBOOK_AUTH_URL

/-- `OAuthData::get_auth_url`: composes the provider authorization URL.
Mirrors the `format!` call: the scope and the redirect URI go through
`encode`, the client id is interpolated as-is. -/
def OAuthData.get_auth_url (d : OAuthData) : String :=
  let scope := encode (oauthScope d.account_type)
  let auth_url := authEndpoint d.account_type
  let redirect_uri := get_redirect_uri_by_path d.issuer d.redirect_path
  auth_url ++ "?client_id=" ++ d.client_id ++ "&response_type=code&scope=" ++
    scope ++ "&redirect_uri=" ++ encode redirect_uri

/-- The token endpoint selected by the `match` in `authorization_code`. -/
def tokenEndpoint : ConnectType → String
  | ConnectType.Google => GOOGLE_TOKEN_URL
  | ConnectType.Facebook => FACEBOOK_TOKEN_URL

/-- The outbound POST built by `authorization_code`: target URL, the
form-encoded body as an ordered association list, and the HTTP Basic
auth credentials passed via `.basic_auth(client_id, Some(client_secret))`. -/
structure TokenRequest where
  url : String
  form : List (String × String)
  basic_auth_user : String
  basic_auth_pass : String
deriving DecidableEq, Repr

/-- The request-construction part of `OAuthData::authorization_code`:
the base form fields, the conditional `grant_type` push for Google, the
provider token URL and the Basic-auth credentials. -/
def OAuthData.authorization_code_request (d : OAuthData) (code : String) :
    TokenRequest :=
  let form_data := [
    ("client_id", d.client_id),
    ("client_secret", d.client_secret),
    ("code", code),
    ("redirect_uri", get_redirect_uri_by_path d.issuer d.redirect_path)]
  let form_data :=
    if d.account_type = ConnectType.Google then
      form_data ++ [("grant_type", "authorization_code")]
    else form_data
  { url := tokenEndpoint d.account_type
    form := form_data
    basic_auth_user := d.client_id
    basic_auth_pass := d.client_secret }

/-- `AccessTokenInfo` from `oauth.rs`. -/
structure AccessTokenInfo where
  access_token : String
  expires_in : Int
  scope : String
  token_type : String
  id_token : String
deriving DecidableEq, Repr

/-- The fields a token-endpoint JSON response may carry, as far as the
`AccessTokenInfo` deserializer looks at them. -/
structure TokenResponseJson where
  access_token : Option String
  expires_in : Option Int
  scope : Option String
  token_type : Option String
  id_token : Option String
deriving DecidableEq, Repr

/-- serde deserialization of `AccessTokenInfo`: `access_token`,
`expires_in` and `token_type` are required; `scope` and `id_token` are
marked `#[serde(skip_deserializing)]` and always take the `String`
default `""`, whatever the response carries. -/
def deserializeAccessTokenInfo (j : TokenResponseJson) :
    Option AccessTokenInfo :=
  match j.access_token, j.expires_in, j.token_type with
  | some a, some e, some t =>
      some { access_token := a, expires_in := e, scope := "",
             token_type := t, id_token := "" }
  | _, _, _ => none

/-- `OAuthData::authorization_code`, with the network round trip made
explicit: it constructs the request and decodes the (oracle-supplied)
response body into an `AccessTokenInfo`. -/
def OAuthData.authorization_code (d : OAuthData) (code : String)
    (resp : TokenResponseJson) : TokenRequest × Option AccessTokenInfo :=
  (d.authorization_code_request code, deserializeAccessTokenInfo resp)

/-- `GoogleAccountInfo` from `oauth.rs`. -/
structure GoogleAccountInfo where
  id : String
  email : String
  verified_email : Bool
  name : String
  given_name : String
  family_name : String
  picture : String
  locale : String
deriving DecidableEq, Repr

/-- `FacebookAccountPictureData` from `oauth.rs`. -/
structure FacebookAccountPictureData where
  height : Int
  is_silhouette : Bool
  url : String
  width : Int
deriving DecidableEq, Repr

/-- `FacebookAccountPicture` from `oauth.rs`. -/
structure FacebookAccountPicture where
  data : FacebookAccountPictureData
deriving DecidableEq, Repr

/-- `FacebookAccountInfo` from `oauth.rs`. -/
structure FacebookAccountInfo where
  id : String
  first_name : String
  last_name : String
  name : String
  email : String
  picture : FacebookAccountPicture
deriving DecidableEq, Repr

/-- `OAuthAccountInfo` from `oauth.rs` (the canonical account shape). -/
structure OAuthAccountInfo where
  id : String
  name : String
  email : String
  picture : String
  verified_email : Bool
deriving DecidableEq, Repr

/-- `OAuthAccountInfo::from_google`. -/
def OAuthAccountInfo.from_google (g : GoogleAccountInfo) : OAuthAccountInfo :=
  { id := g.id
    name := g.name
    email := g.email
    picture := g.picture
    verified_email := g.verified_email }

/-- `OAuthAccountInfo::from_facebook`. -/
def OAuthAccountInfo.from_facebook (f : FacebookAccountInfo) :
    OAuthAccountInfo :=
  { id := f.id
    name := f.name
    email := f.email
    picture := f.picture.data.url
    verified_email := true }

/-- An outbound GET request of the user-info fetchers: target URL, and
the bearer token carried in the Authorization header, if any. -/
structure UserInfoRequest where
  url : String
  bearer_token : Option String
deriving DecidableEq, Repr

/-- The request built by `AccessTokenInfo::get_google_user_info`:
a GET to the fixed Google user-info endpoint with
`.bearer_auth(access_token)`. -/
def AccessTokenInfo.get_google_user_info_request (info : AccessTokenInfo) :
    UserInfoRequest :=
  { url := GOOGLE_USER_INFO, bearer_token := some info.access_token }

/-- The request built by `AccessTokenInfo::get_facebook_user_info`:
a GET carrying the field selector and the access token as query
parameters, with no Authorization header. -/
def AccessTokenInfo.get_facebook_user_info_request (info : AccessTokenInfo) :
    UserInfoRequest :=
  { url := FACEBOOK_USER_INFO ++
      "/me?fields=id,first_name,last_name,name,email,picture&access_token=" ++
      info.access_token
    bearer_token := none }

/-- Failure of one outbound call, as `oauth.rs` observes it: a transport
error from `reqwest` or a decode error from `.json()`. -/
inductive FetchError where
  | transport (msg : String)
  | decode (msg : String)
deriving DecidableEq, Repr

/-- `AccessTokenInfo::get_account_info`, with the two user-info fetches
abstracted as oracles: `Google` runs the Google fetch and normalizes via
`from_google`, `Facebook` runs the Facebook fetch and normalizes via
`from_facebook`; the `?` operator makes a fetch error return early. -/
def AccessTokenInfo.get_account_info (info : AccessTokenInfo)
    (account_type : ConnectType)
    (google_fetch : AccessTokenInfo → Except FetchError GoogleAccountInfo)
    (facebook_fetch : AccessTokenInfo → Except FetchError FacebookAccountInfo) :
    Except FetchError OAuthAccountInfo :=
  match account_type with
  | ConnectType.Google =>
      (google_fetch info).map OAuthAccountInfo.from_google
  | ConnectType.Facebook =>
      (facebook_fetch info).map OAuthAccountInfo.from_facebook

/-- `Code` from the router's data layer, as used by `user_info`:
`Code::Ok` on success, `Code::AuthError` on the unauthorized branch. -/
inductive Code where
  | Ok
  | AuthError
deriving DecidableEq, Repr

/-- `Response::data(code, data)` from the router's data layer, modelled
by its use in `user_info`. -/
structure Response (α : Type) where
  code : Code
  data : Option α
deriving DecidableEq, Repr

/-- `UserInfo` as constructed by `user_info` from the stored user. -/
structure UserInfo where
  username : String
  email : String
  modes : List String
  connects : List String
deriving DecidableEq, Repr

/-- The stored user document, modelled by the four fields `user_info`
reads from it. -/
structure DbUser where
  username : String
  email : String
  modes : List String
  connect : List String
deriving DecidableEq, Repr

/-- `AuthError`: the typed authentication failure of the router, an
`Unauthorized` response with an optional body. -/
inductive AuthError where
  | unauthorized (body : Option (Response UserInfo))
deriving DecidableEq, Repr

/-- The request-guard result `Result<LoginUserData, AuthError>`: the
login session data carries the session's user id string. -/
structure LoginUserData where
  id : String
deriving DecidableEq, Repr

/-- A MongoDB driver error surfaced by `find_one`. -/
structure DbError where
  msg : String
deriving DecidableEq, Repr

/-- A BSON `ObjectId`, carried as its 24-character hex string. -/
structure ObjectId where
  hex : String
deriving DecidableEq, Repr

def isHexDigitChar (c : Char) : Bool :=
  (('0' ≤ c && c ≤ '9') || ('a' ≤ c && c ≤ 'f') || ('A' ≤ c && c ≤ 'F'))

/-- `bson::oid::ObjectId::parse_str`: succeeds exactly on 24-character
hexadecimal strings. -/
def ObjectId.parse_str (s : String) : Option ObjectId :=
  if s.data.length = 24 ∧ s.data.all isHexDigitChar then some ⟨s⟩ else none

/-- The observable outcome of one `user_info` handler invocation:
a success response, a typed error response, or a panic from `unwrap`. -/
inductive UserInfoOutcome where
  | panicked
  | success (r : Response UserInfo)
  | failure (e : AuthError)
deriving DecidableEq, Repr

/-- The `user_info` handler of `src/router/src/apis/user.rs`. The
database collection handle (`db.user`) and the `find_one` query are
oracles; each `unwrap` in the source becomes a `panicked` outcome on
the corresponding `None`/`Err` value. -/
def user_info (login_user_data : Except AuthError LoginUserData)
    (db_user : Option Unit)
    (find_one : ObjectId → Except DbError (Option DbUser)) :
    UserInfoOutcome :=
  match login_user_data with
  | Except.error err => UserInfoOutcome.failure err
  | Except.ok lud =>
    match db_user with
    | none => UserInfoOutcome.panicked
    | some _ =>
      match ObjectId.parse_str lud.id with
      | none => UserInfoOutcome.panicked
      | some oid =>
        match find_one oid with
        | Except.error _ => UserInfoOutcome.panicked
        | Except.ok (some u) =>
            UserInfoOutcome.success
              { code := Code.Ok
                data := some { username := u.username, email := u.email,
                               modes := u.modes, connects := u.connect } }
        | Except.ok none =>
            UserInfoOutcome.failure
              (AuthError.unauthorized
                (some { code := Code.AuthError, data := none }))

/-- Whether a string is free of raw `&`, `?` and space characters. -/
def noRawReserved (s : String) : Bool :=
  s.data.all fun c => !(c == '&' || c == '?' || c == ' ')

/-- The URL shape claimed by the spec for `BuildAuthorizationUrl`, with
every dynamic value including the client id percent-encoded. -/
def buildAuthorizationUrlAllEncoded (d : OAuthData) : String :=
  authEndpoint d.account_type ++ "?client_id=" ++ encode d.client_id ++
    "&response_type=code&scope=" ++ encode (oauthScope d.account_type) ++
    "&redirect_uri=" ++
    encode (get_redirect_uri_by_path d.issuer d.redirect_path)

/-- The URL template stated by the spec for `BuildAuthorizationUrl`:
the authorize endpoint of the provider, then the raw client id, the
encoded scope and the encoded redirect URI. -/
def buildAuthorizationUrlTemplate (d : OAuthData) : String :=
  authEndpoint d.account_type ++ "?client_id=" ++ d.client_id ++
    "&response_type=code&scope=" ++ encode (oauthScope d.account_type) ++
    "&redirect_uri=" ++
    encode (get_redirect_uri_by_path d.issuer d.redirect_path)

lemma char_toNat_lt_uniMax (c : Char) : c.toNat < 1114112 := by
  have h := c.valid
  rcases h with h | ⟨h1, h2⟩
  · exact Nat.lt_trans h (by norm_num)
  · exact h2

lemma utf8Bytes_lt (c : Char) : ∀ n ∈ utf8Bytes c, n < 256 := by
  have hc := char_toNat_lt_uniMax c
  simp only [utf8Bytes]
  split_ifs with h1 h2 h3 <;> intro n hn <;>
    simp only [List.mem_cons, List.mem_singleton, List.not_mem_nil,
      or_false] at hn
  · omega
  · rcases hn with rfl | rfl <;> omega
  · rcases hn with rfl | rfl | rfl <;> omega
  · rcases hn with rfl | rfl | rfl | rfl <;> omega

lemma encodeByte_all_safe :
    ∀ n, n < 256 →
      (encodeByte n).all (fun c => !(c == '&' || c == '?' || c == ' ')) = true := by
  decide

lemma mem_encodeBytes {c : Char} :
    ∀ {l : List Nat}, c ∈ encodeBytes l → ∃ n ∈ l, c ∈ encodeByte n := by
  intro l
  induction l with
  | nil => intro h; simp [encodeBytes] at h
  | cons n rest ih =>
    intro h
    rw [encodeBytes, List.mem_append] at h
    rcases h with h | h
    · exact ⟨n, List.mem_cons_self n rest, h⟩
    · obtain ⟨m, hm, hcm⟩ := ih h
      exact ⟨m, List.mem_cons_of_mem n hm, hcm⟩

lemma encode_noRawReserved (s : String) : noRawReserved (encode s) = true := by
  unfold noRawReserved encode
  rw [List.all_eq_true]
  intro c hc
  obtain ⟨n, hn, hcn⟩ := mem_encodeBytes hc
  obtain ⟨ch, _, hnch⟩ := List.mem_flatMap.mp hn
  have hlt : n < 256 := utf8Bytes_lt ch n hnch
  have := encodeByte_all_safe n hlt
  rw [List.all_eq_true] at this
  exact this c hcn

/-- C1: for every context and code, the token-exchange POST built by
`authorization_code` goes to the provider token endpoint, its form body
holds exactly client_id, client_secret, code and redirect_uri (with
their context values), `grant_type=authorization_code` is in the body
iff the provider is Google, and the request carries Basic-auth
credentials (client_id, client_secret). -/
theorem authorization_code_request_shape (d : OAuthData) (code : String) :
    (d.authorization_code_request code).form.map Prod.fst =
      (if d.account_type = ConnectType.Google then
        ["client_id", "client_secret", "code", "redirect_uri", "grant_type"]
      else ["client_id", "client_secret", "code", "redirect_uri"]) ∧
    (d.authorization_code_request code).form.lookup "client_id" =
      some d.client_id ∧
    (d.authorization_code_request code).form.lookup "client_secret" =
      some d.client_secret ∧
    (d.authorization_code_request code).form.lookup "code" = some code ∧
    (d.authorization_code_request code).form.lookup "redirect_uri" =
      some (get_redirect_uri_by_path d.issuer d.redirect_path) ∧
    (("grant_type", "authorization_code") ∈
        (d.authorization_code_request code).form ↔
      d.account_type = ConnectType.Google) ∧
    (d.authorization_code_request code).basic_auth_user = d.client_id ∧
    (d.authorization_code_request code).basic_auth_pass = d.client_secret ∧
    (d.authorization_code_request code).url =
      (if d.account_type = ConnectType.Google then GOOGLE_TOKEN_URL
       else FACEBOOK_TOKEN_URL) := by
  cases hd : d.account_type <;>
    simp [OAuthData.authorization_code_request, tokenEndpoint, hd,
      List.lookup]

/-- C2: `from_facebook` sets verified_email to true for every input and
copies the nested picture.data.url field into the canonical picture. -/
theorem from_facebook_verified_and_picture (f : FacebookAccountInfo) :
    (OAuthAccountInfo.from_facebook f).verified_email = true ∧
    (OAuthAccountInfo.from_facebook f).picture = f.picture.data.url :=
  ⟨rfl, rfl⟩

/-- C3: `from_google` copies id, name, email, picture and verified_email
from the Google raw account into the canonical account unchanged (in
particular verified_email passes through for both true and false). -/
theorem from_google_copies_fields (g : GoogleAccountInfo) :
    OAuthAccountInfo.from_google g =
      { id := g.id, name := g.name, email := g.email, picture := g.picture,
        verified_email := g.verified_email } :=
  rfl

/-- A context whose client id contains a raw ampersand. -/
def ampersandClientCtx : OAuthData :=
  { account_type := ConnectType.Facebook, client_secret := "s",
    client_id := "a&b", issuer := "http://i", redirect_path := "/r" }

/-- C4 counterexample: the client id is interpolated into the query
string without percent-encoding, so a client id containing a raw
ampersand leaks it into the URL; the all-encoded URL the claim
describes differs from what `get_auth_url` returns. -/
theorem get_auth_url_client_id_not_encoded :
    ampersandClientCtx.get_auth_url ≠
      buildAuthorizationUrlAllEncoded ampersandClientCtx ∧
    ampersandClientCtx.get_auth_url =
      "https://www.facebook.com/dialog/oauth?client_id=a&b&response_type=code&scope=public_profile%2Cemail&redirect_uri=http%3A%2F%2Fi%2Fr" := by
  constructor <;> decide

/-- C4 amended: in the URL returned by `get_auth_url` the scope and the
redirect URI are percent-encoded before insertion, and their encodings
contain no raw ampersand, question mark or space; the client id however
is inserted without encoding. -/
theorem get_auth_url_encodes_scope_and_redirect (d : OAuthData) :
    noRawReserved (encode (oauthScope d.account_type)) = true ∧
    noRawReserved
      (encode (get_redirect_uri_by_path d.issuer d.redirect_path)) = true ∧
    d.get_auth_url =
      authEndpoint d.account_type ++ "?client_id=" ++ d.client_id ++
        "&response_type=code&scope=" ++ encode (oauthScope d.account_type) ++
        "&redirect_uri=" ++
        encode (get_redirect_uri_by_path d.issuer d.redirect_path) :=
  ⟨encode_noRawReserved _, encode_noRawReserved _, rfl⟩

/-- C5: `get_auth_url` deterministically returns the spec's template
URL: the provider authorize endpoint, then client_id, response_type=code,
the encoded scope and the encoded redirect URI, with the endpoint being
the Google authorization URL for Google and the Facebook one for
Facebook; being a pure total function it cannot fail and the same
context always yields the same URL. -/
theorem get_auth_url_matches_template (d : OAuthData) :
    d.get_auth_url = buildAuthorizationUrlTemplate d ∧
    authEndpoint ConnectType.Google = GOOGLE_AUTH_URL ∧
    authEndpoint ConnectType.Facebook = FACEBOOK_AUTH_URL :=
  ⟨rfl, rfl, rfl⟩

/-- C6: if the user-info fetch selected by the provider kind fails,
`get_account_info` returns that error unchanged and no canonical
account is produced (so normalization is never reached); an account is
produced only from a successful fetch of the matching provider. -/
theorem get_account_info_error_propagation
    (info : AccessTokenInfo)
    (gf : AccessTokenInfo → Except FetchError GoogleAccountInfo)
    (ff : AccessTokenInfo → Except FetchError FacebookAccountInfo)
    (e : FetchError) :
    (gf info = Except.error e →
      info.get_account_info ConnectType.Google gf ff = Except.error e) ∧
    (ff info = Except.error e →
      info.get_account_info ConnectType.Facebook gf ff = Except.error e) ∧
    (∀ t a, info.get_account_info t gf ff = Except.ok a →
      (∃ g, gf info = Except.ok g ∧ a = OAuthAccountInfo.from_google g) ∨
      (∃ f, ff info = Except.ok f ∧ a = OAuthAccountInfo.from_facebook f)) := by
  refine ⟨fun h => ?_, fun h => ?_, fun t a h => ?_⟩
  · simp [AccessTokenInfo.get_account_info, h, Except.map]
  · simp [AccessTokenInfo.get_account_info, h, Except.map]
  · cases t with
    | Google =>
      left
      rw [AccessTokenInfo.get_account_info] at h
      cases hg : gf info with
      | error err => rw [hg] at h; simp [Except.map] at h
      | ok g =>
        rw [hg] at h
        simp only [Except.map, Except.ok.injEq] at h
        exact ⟨g, rfl, h.symm⟩
    | Facebook =>
      right
      rw [AccessTokenInfo.get_account_info] at h
      cases hf : ff info with
      | error err => rw [hf] at h; simp [Except.map] at h
      | ok f =>
        rw [hf] at h
        simp only [Except.map, Except.ok.injEq] at h
        exact ⟨f, rfl, h.symm⟩

/-- A concrete access token value used to instantiate the flow. -/
def sampleTokenInfo : AccessTokenInfo :=
  { access_token := "tok", expires_in := 3600, scope := "",
    token_type := "Bearer", id_token := "" }

/-- A user-info fetch oracle that fails with a transport error. -/
def failingGoogleFetch :
    AccessTokenInfo → Except FetchError GoogleAccountInfo :=
  fun _ => Except.error (FetchError.transport "network unreachable")

/-- A user-info fetch oracle that fails with a transport error. -/
def failingFacebookFetch :
    AccessTokenInfo → Except FetchError FacebookAccountInfo :=
  fun _ => Except.error (FetchError.transport "network unreachable")

/-- C6 witness: with failing fetch oracles the flow surfaces the
transport error for both provider kinds. -/
theorem get_account_info_error_propagation_witness :
    sampleTokenInfo.get_account_info ConnectType.Google
      failingGoogleFetch failingFacebookFetch =
      Except.error (FetchError.transport "network unreachable") ∧
    sampleTokenInfo.get_account_info ConnectType.Facebook
      failingGoogleFetch failingFacebookFetch =
      Except.error (FetchError.transport "network unreachable") :=
  ⟨(get_account_info_error_propagation sampleTokenInfo failingGoogleFetch
      failingFacebookFetch (FetchError.transport "network unreachable")).1 rfl,
   (get_account_info_error_propagation sampleTokenInfo failingGoogleFetch
      failingFacebookFetch
      (FetchError.transport "network unreachable")).2.1 rfl⟩

/-- C7: `get_account_info` selects the raw shape solely by the provider
kind and never mixes providers: the Google branch is exactly the Google
fetch mapped through `from_google` and ignores the Facebook oracle (and
symmetrically); the Google request is a bearer-authenticated GET to the
Google user-info endpoint while the Facebook request passes the access
token and field selector as query parameters with no bearer header. -/
theorem get_account_info_provider_separation
    (info : AccessTokenInfo)
    (gf gf2 : AccessTokenInfo → Except FetchError GoogleAccountInfo)
    (ff ff2 : AccessTokenInfo → Except FetchError FacebookAccountInfo) :
    info.get_account_info ConnectType.Google gf ff =
      (gf info).map OAuthAccountInfo.from_google ∧
    info.get_account_info ConnectType.Facebook gf ff =
      (ff info).map OAuthAccountInfo.from_facebook ∧
    info.get_account_info ConnectType.Google gf ff =
      info.get_account_info ConnectType.Google gf ff2 ∧
    info.get_account_info ConnectType.Facebook gf ff =
      info.get_account_info ConnectType.Facebook gf2 ff ∧
    info.get_google_user_info_request =
      { url := GOOGLE_USER_INFO, bearer_token := some info.access_token } ∧
    info.get_facebook_user_info_request =
      { url := FACEBOOK_USER_INFO ++
          "/me?fields=id,first_name,last_name,name,email,picture&access_token=" ++
          info.access_token,
        bearer_token := none } :=
  ⟨rfl, rfl, rfl, rfl, rfl, rfl⟩

/-- A Google-variant context for the token exchange. -/
def googleTokenCtx : OAuthData :=
  { account_type := ConnectType.Google, client_secret := "sec",
    client_id := "cid", issuer := "http://i", redirect_path := "/cb" }

/-- A token-endpoint response that carries scope and id_token values. -/
def scopedTokenResp : TokenResponseJson :=
  { access_token := some "tok", expires_in := some 3600, scope := some "sc",
    token_type := some "Bearer", id_token := some "idt" }

/-- What the deserializer actually produces from `scopedTokenResp`. -/
def decodedTokenInfo : AccessTokenInfo :=
  { access_token := "tok", expires_in := 3600, scope := "",
    token_type := "Bearer", id_token := "" }

/-- C8 counterexample: for a Google-variant exchange whose response
carries scope and id_token values, the produced `AccessTokenInfo` still
has empty scope and id_token — `#[serde(skip_deserializing)]` prevents
them from being populated even for Google. -/
theorem authorization_code_drops_google_scope :
    googleTokenCtx.account_type = ConnectType.Google ∧
    scopedTokenResp.scope = some "sc" ∧
    scopedTokenResp.id_token = some "idt" ∧
    (googleTokenCtx.authorization_code "c" scopedTokenResp).2 =
      some decodedTokenInfo ∧
    decodedTokenInfo.scope = "" ∧
    decodedTokenInfo.id_token = "" ∧
    (googleTokenCtx.authorization_code "c" scopedTokenResp).2.map
        AccessTokenInfo.scope ≠ some "sc" := by
  refine ⟨rfl, rfl, rfl, rfl, rfl, rfl, ?_⟩
  decide

/-- C8 amended: in every `AccessTokenInfo` produced by
`authorization_code`, for either provider variant, the scope and
id_token fields are left empty regardless of the response body. -/
theorem authorization_code_scope_id_token_always_empty
    (d : OAuthData) (code : String) (resp : TokenResponseJson)
    (i : AccessTokenInfo)
    (h : (d.authorization_code code resp).2 = some i) :
    i.scope = "" ∧ i.id_token = "" := by
  have hd : (d.authorization_code code resp).2 =
      deserializeAccessTokenInfo resp := rfl
  rw [hd] at h
  unfold deserializeAccessTokenInfo at h
  split at h
  · injection h with h2
    subst h2
    exact ⟨rfl, rfl⟩
  · exact Option.noConfusion h

/-- C8 witness: the amended statement evaluated on the concrete
Google-variant exchange. -/
theorem authorization_code_scope_id_token_always_empty_witness :
    decodedTokenInfo.scope = "" ∧ decodedTokenInfo.id_token = "" :=
  authorization_code_scope_id_token_always_empty googleTokenCtx "c"
    scopedTokenResp decodedTokenInfo rfl

/-- C9: the `user_info` handler panics (via `unwrap`) instead of
returning a typed error when the database user collection handle is
missing, when the login-session id is not a parseable ObjectId, or when
the database query fails. -/
theorem user_info_unwrap_panics :
    (∀ (login : LoginUserData)
        (fo : ObjectId → Except DbError (Option DbUser)),
      user_info (Except.ok login) none fo = UserInfoOutcome.panicked) ∧
    (∀ (login : LoginUserData)
        (fo : ObjectId → Except DbError (Option DbUser)),
      ObjectId.parse_str login.id = none →
      user_info (Except.ok login) (some ()) fo = UserInfoOutcome.panicked) ∧
    (∀ (login : LoginUserData) (e : DbError),
      (∃ oid, ObjectId.parse_str login.id = some oid) →
      user_info (Except.ok login) (some ())
        (fun _ => Except.error e) = UserInfoOutcome.panicked) := by
  refine ⟨fun login fo => rfl, fun login fo h => ?_,
    fun login e ⟨oid, h⟩ => ?_⟩
  · simp [user_info, h]
  · simp [user_info, h]

/-- C9 witness: concrete panics for all three failure inputs — a
missing collection handle, the unparseable session id
"not-an-object-id", and a failing query on a well-formed id. -/
theorem user_info_unwrap_panics_witness :
    user_info (Except.ok ⟨"x"⟩) none
      (fun _ => Except.error ⟨"db down"⟩) = UserInfoOutcome.panicked ∧
    user_info (Except.ok ⟨"not-an-object-id"⟩) (some ())
      (fun _ => Except.error ⟨"db down"⟩) = UserInfoOutcome.panicked ∧
    user_info (Except.ok ⟨"0123456789abcdef01234567"⟩) (some ())
      (fun _ => Except.error ⟨"db down"⟩) = UserInfoOutcome.panicked :=
  ⟨user_info_unwrap_panics.1 ⟨"x"⟩ _,
   user_info_unwrap_panics.2.1 ⟨"not-an-object-id"⟩ _ (by decide),
   user_info_unwrap_panics.2.2 ⟨"0123456789abcdef01234567"⟩ ⟨"db down"⟩
     ⟨⟨"0123456789abcdef01234567"⟩, by decide⟩⟩

/-- C10: the redirect URI inserted (before percent-encoding) into the
authorization URL is exactly the string sent as the redirect_uri form
field by the token exchange for the same context: both are
`get_redirect_uri_by_path issuer redirect_path`. -/
theorem redirect_uri_shared_between_auth_url_and_exchange
    (d : OAuthData) (code : String) :
    (d.authorization_code_request code).form.lookup "redirect_uri" =
      some (get_redirect_uri_by_path d.issuer d.redirect_path) ∧
    d.get_auth_url =
      (authEndpoint d.account_type ++ "?client_id=" ++ d.client_id ++
        "&response_type=code&scope=" ++
        encode (oauthScope d.account_type)) ++
        "&redirect_uri=" ++
        encode (get_redirect_uri_by_path d.issuer d.redirect_path) := by
  constructor
  · cases hd : d.account_type <;>
      simp [OAuthData.authorization_code_request, hd, List.lookup]
  · rfl
